import Mathlib

/-!
Shallow embedding of `pp_extract.py` (photometrypipeline): the multi-threaded
Source Extractor driver.  Strings are modelled as `List Char` (`Str`), Python
floats as `ℚ`, FITS headers as partial maps from key strings to header values.
The external collaborators (`dateobs_to_jd` from `toolbox`, Python's
`str`/`float` conversions for floats) are passed in as function parameters of
the model, mirroring the spec's treatment of them as opaque collaborators.
-/

abbrev Str := List Char

/-- Python substring prefix test used by `find`: `isPrefixOfB sub s` is true
when `sub` is an initial segment of `s`. -/
def isPrefixOfB : Str → Str → Bool
  | [], _ => true
  | _ :: _, [] => false
  | a :: as, b :: bs => a == b && isPrefixOfB as bs

/-- Python `s.find(sub)`: index of the first occurrence of `sub` in `s`
(`none` models Python's `-1`). -/
def findSub : Str → Str → Option Nat
  | [], sub => if isPrefixOfB sub [] then some 0 else none
  | c :: t, sub =>
    if isPrefixOfB sub (c :: t) then some 0
    else (findSub t sub).map (· + 1)

/-- Python `sub in s` (and `s.find(sub) != -1`). -/
def containsSub (s sub : Str) : Bool := (findSub s sub).isSome

/-- Python `s[:i]` for `i = s.find(sub)`: when the substring is absent,
Python's `find` returns `-1` and `s[:-1]` drops the final character. -/
def sliceToFind (s sub : Str) : Str :=
  match findSub s sub with
  | some i => s.take i
  | none => s.take (s.length - 1)

/-- The characters of `".fit"`, the image-format marker searched for at
`pp_extract.py` lines 82 and 126. -/
def fitL : Str := ['.', 'f', 'i', 't']

/-- The characters of `".ldac"`, the catalog suffix. -/
def ldacL : Str := ['.', 'l', 'd', 'a', 'c']

/-- `pp_extract.py` line 82: `ldacname = filename[:filename.find('.fit')]+'.ldac'`. -/
def ldacName (filename : Str) : Str :=
  sliceToFind filename fitL ++ ldacL

/-- Python `s.split(sep)` for a single-character separator, accumulator form. -/
def pySplitAux (sep : Char) : Str → Str → List Str
  | [], acc => [acc.reverse]
  | c :: t, acc =>
    if c = sep then acc.reverse :: pySplitAux sep t []
    else pySplitAux sep t (c :: acc)

/-- Python `s.split(sep)` for a single-character separator (keeps empty parts). -/
def pySplitChar (s : Str) (sep : Char) : List Str := pySplitAux sep s []

/-- Whitespace characters recognised by Python's no-argument `str.split()`. -/
def isWsChar (c : Char) : Bool := c = ' ' || c = '\t' || c = '\n'

/-- Python `s.split()` (no argument): split on whitespace runs, dropping
empty tokens, accumulator form. -/
def pySplitWsAux : Str → Str → List Str
  | [], acc => if acc.isEmpty then [] else [acc.reverse]
  | c :: t, acc =>
    if isWsChar c then
      if acc.isEmpty then pySplitWsAux t [] else acc.reverse :: pySplitWsAux t []
    else pySplitWsAux t (c :: acc)

/-- Python `s.split()` with no argument. -/
def pySplitWs (s : Str) : List Str := pySplitWsAux s []

/-- Decimal digit string of an integer, as produced by Python `str` on ints. -/
def intStr (i : ℤ) : Str :=
  if i < 0 then '-' :: Nat.toDigits 10 i.natAbs else Nat.toDigits 10 i.natAbs

/-- Value of a nonempty all-digit string, `none` otherwise. -/
def digitsVal (s : Str) : Option ℕ :=
  if s.isEmpty then none
  else s.foldl (fun acc c =>
    acc.bind fun a => if c.isDigit then some (a * 10 + (c.toNat - 48)) else none)
    (some 0)

/-- Simple decimal rational parser (`"12"`, `"12.5"`, optional leading minus):
a concrete instance of Python's `float(str)` conversion, used to instantiate
the abstract conversion parameter at witnesses. -/
def parseQ (s : Str) : Option ℚ :=
  let core : Str → Option ℚ := fun u =>
    match pySplitChar u '.' with
    | [a] => (digitsVal a).map (fun n => (n : ℚ))
    | [a, b] =>
      match digitsVal a, digitsVal b with
      | some n, some m => some ((n : ℚ) + (m : ℚ) / ((10 : ℚ) ^ b.length))
      | _, _ => none
    | _ => none
  if s.headD ' ' = '-' then (core s.tail).map (fun q => -q) else core s

/-- Simple decimal rendering of a rational: a concrete instance of Python's
`str(float)` conversion, used to instantiate the abstract conversion
parameter at witnesses. -/
def showQ (q : ℚ) : Str :=
  if q.den = 1 then intStr q.num
  else intStr q.num ++ '/' :: Nat.toDigits 10 q.den

/-- A FITS header value: a string or a number (Python floats/ints as `ℚ`). -/
inductive HVal
  | s (v : Str)
  | n (q : ℚ)
deriving DecidableEq

/-- A FITS primary header, `hdu[0].header`: partial map from key to value;
`none` models a `KeyError` on access. -/
abbrev Header := Str → Option HVal

/-- Python `float(v)` on a header value: numbers pass through, strings go
through the float conversion `pf`. -/
def hvalFloat (pf : Str → Option ℚ) : HVal → Option ℚ
  | .n q => some q
  | .s v => pf v

/-- Python association lookup `d[k]` / `k in d` over a telescope table or a
mask-file mapping. -/
def assocLookup {α : Type} : List (Str × α) → Str → Option α
  | [], _ => none
  | (k, v) :: t, key => if k = key then some v else assocLookup t key

/-- The instrument configuration `_pp_conf.telescope_parameters[telescope]`:
the fields of the dictionary that `pp_extract.py` reads. -/
structure ObsParam where
  sexConfigFile : Str
  aprad_default : ℚ
  binning : Str × Str
  mask_file : List (Str × Str)
  obsmidtime_jd : Str
  date_keyword : Str
  exptime : Str
deriving DecidableEq

/-- The characters of `"|"`, the separator tested at `pp_extract.py` line 138. -/
def pipeL : Str := ['|']

/-- `pp_extract.py` lines 134-150: the observation mid-time.  If the header
already holds the mid-time key its value is used directly; otherwise the
date keyword is either a single combined date-time key (no `|`) or two keys
joined by `|`, whose values are concatenated with a literal `T`;
`dateobs_to_jd` (the `jd` parameter, from `toolbox`) converts the date-time
string and half the exposure time in days is added.  `none` models a raised
exception (`KeyError` on a missing key, or a non-string date value). -/
def computeMidtime (jd : Str → ℚ) (pf : Str → Option ℚ) (op : ObsParam)
    (h : Header) : Option HVal :=
  match h op.obsmidtime_jd with
  | some v => some v
  | none =>
    if containsSub op.date_keyword pipeL = false then
      match h op.date_keyword, h op.exptime with
      | some (.s d), some ev =>
        match hvalFloat pf ev with
        | some t => some (.n (jd d + t / 2 / 86400))
        | none => none
      | _, _ => none
    else
      match (pySplitChar op.date_keyword '|')[0]?,
            (pySplitChar op.date_keyword '|')[1]? with
      | some k1, some k2 =>
        match h k1, h k2 with
        | some (.s d), some (.s tm) =>
          match h op.exptime with
          | some ev =>
            match hvalFloat pf ev with
            | some t => some (.n (jd (d ++ 'T' :: tm) + t / 2 / 86400))
            | none => none
          | none => none
        | _, _ => none
      | _, _ => none

/-- One element of Python's `parameters['aprad']` after possible wrapping: a
number, or the string form `str(scalar)` produced at line 222. -/
inductive PyScalar
  | num (q : ℚ)
  | str (s : Str)
deriving DecidableEq

/-- The dynamic type of `parameters['aprad']` as `pp_extract.py` inspects it:
a Python float, a Python int, a list, or a numpy array. -/
inductive Aprad
  | flt (q : ℚ)
  | intg (n : ℤ)
  | lst (l : List PyScalar)
  | arr (l : List ℚ)
deriving DecidableEq

/-- Python `float(rad)` for a list element that is a number or a string. -/
def pyFloatScalar (pf : Str → Option ℚ) : PyScalar → Option ℚ
  | .num q => some q
  | .str s => pf s

/-- Map a fallible function over a list, failing if any element fails
(the effect of a raised `ValueError` inside the comprehension). -/
def optionMapList {α β : Type} (f : α → Option β) : List α → Option (List β)
  | [] => some []
  | x :: t =>
    match f x, optionMapList f t with
    | some v, some vs => some (v :: vs)
    | _, _ => none

/-- `pp_extract.py` lines 223-224: the comma-joined diameter string
`','.join([str(float(rad)*2.) for rad in aprad])`. -/
def joinDiam (pyStr : ℚ → Str) (pf : Str → Option ℚ) (l : List PyScalar) :
    Option Str :=
  (optionMapList (pyFloatScalar pf) l).map fun vs =>
    List.intercalate [','] (vs.map fun v => pyStr (v * 2))

/-- `pp_extract.py` lines 213-224: set the aperture photometry diameter
string.  A float equal to 0 or an empty list selects twice the instrument
default; any other non-list non-array value is wrapped into the one-element
list `[str(aprad)]`; the result pairs the (possibly wrapped) radius value
with the diameter string.  `none` models a raised `ValueError`. -/
def prepAperture (pyStr : ℚ → Str) (pf : Str → Option ℚ) (aprad : Aprad)
    (op : ObsParam) : Option (Aprad × Str) :=
  match aprad with
  | .flt q =>
    if q = 0 then some (.flt q, pyStr (op.aprad_default * 2))
    else (joinDiam pyStr pf [.str (pyStr q)]).map
      fun s => (.lst [.str (pyStr q)], s)
  | .intg n =>
    (joinDiam pyStr pf [.str (intStr n)]).map
      fun s => (.lst [.str (intStr n)], s)
  | .lst l =>
    if l = [] then some (.lst l, pyStr (op.aprad_default * 2))
    else (joinDiam pyStr pf l).map fun s => (.lst l, s)
  | .arr l =>
    (joinDiam pyStr pf (l.map .num)).map fun s => (.arr l, s)

/-- The characters of `"_"`, tested at `pp_extract.py` line 228. -/
def undL : Str := ['_']

/-- The characters of `"_blank"`, tested at `pp_extract.py` line 229. -/
def blankL : Str := ['_', 'b', 'l', 'a', 'n', 'k']

/-- `pp_extract.py` lines 227-239: detect the pixel binning from the first
image's header.  A binning key containing `_` is handled only when it also
contains `_blank` (key truncated at the first `_`, header value split on
whitespace, token 0 for x and token 1 for y, converted by `float`); a key
containing `_` but not `_blank` leaves both binning variables unassigned,
modelled as `none` (the code then raises `NameError` at line 239).  A key
without `_` reads both header values directly (a non-numeric value would
make the `'%d'` formatting raise, also `none`). -/
def computeBinning (pf : Str → Option ℚ) (op : ObsParam) (h : Header) :
    Option (ℚ × ℚ) :=
  if containsSub op.binning.1 undL then
    if containsSub op.binning.1 blankL then
      match h ((pySplitChar op.binning.1 '_').headD []) with
      | some (.s v1) =>
        match (pySplitWs v1)[0]? with
        | some t1 =>
          match pf t1 with
          | some bx =>
            match h ((pySplitChar op.binning.2 '_').headD []) with
            | some (.s v2) =>
              match (pySplitWs v2)[1]? with
              | some t2 =>
                match pf t2 with
                | some bny => some (bx, bny)
                | none => none
              | none => none
            | _ => none
          | none => none
        | none => none
      | _ => none
    else none
  else
    match h op.binning.1, h op.binning.2 with
    | some (.n bx), some (.n bny) => some (bx, bny)
    | _, _ => none

/-- Python `'%d' % q` truncation of a float toward zero. -/
def ratTruncInt (q : ℚ) : ℤ := q.num.tdiv (q.den : ℤ)

/-- `pp_extract.py` line 239: `bin_string = '%d,%d' % (binning_x, binning_y)`. -/
def binStringOf (bx bny : ℚ) : Str :=
  intStr (ratTruncInt bx) ++ ',' :: intStr (ratTruncInt bny)

/-- The `parameters` dictionary as handed to `extract_multiframe` (lines
316-320): detection threshold, minimum area, aperture radii, optional
telescope override, quiet flag, optional alternative parameter file. -/
structure Params where
  sex_snr : ℚ
  source_minarea : ℚ
  aprad : Aprad
  telescope : Option Str
  quiet : Bool
  paramfile : Option Str

/-- The `parameters` dictionary after `extract_multiframe`'s batch
preparation (telescope resolved to `obsparam`, `aperture_diam` set, `aprad`
possibly wrapped, `mask_file` present iff the detected binning has a mask). -/
structure RunParams where
  sex_snr : ℚ
  source_minarea : ℚ
  aprad : Aprad
  quiet : Bool
  paramfile : Option Str
  obsparam : ObsParam
  aperture_diam : Str
  mask_file : Option Str

/-- One `out` dictionary of `extractor.run` (lines 75-161): every field is
`Option` because the keys are set one by one as the job progresses, so a
record of a job that died mid-way holds only the keys set before the
failure.  `catalog_data` is abstracted to the number of catalog rows. -/
structure Record where
  fits_filename : Option Str := none
  ldac_filename : Option Str := none
  parameters : Option RunParams := none
  catalog_data : Option ℕ := none
  time : Option HVal := none
  fits_header : Option Header := none

/-- The batch's environment: the external collaborators of `pp_extract.py`.
`pyStr`/`pyFloat` are Python's float-to-string and string-to-float
conversions, `dateobs_to_jd` is the `toolbox` converter, `header` gives
each file's FITS primary header, `telescope_parameters` is the static
`_pp_conf` table, `launchOk` says whether `subprocess.Popen` succeeds for a
frame, `readLdacOk` whether `read_ldac` succeeds on a catalog path, and
`ldacLen` the number of rows read.  `poolDequeues` is the scheduling
outcome of the worker pool: the number of queue items dequeued before the
pool stops.  All filenames are enqueued before any worker starts and the
queue is FIFO, so the dequeued items are always a prefix of the input
list; how long that prefix is depends on the thread schedule, because a
worker whose iteration raises dies for good, and once all
`min(nThreads, len(filenames))` workers have died the remaining items are
stranded (possible only when there are more files than workers and at
least as many failing jobs as workers).  Taking the count as an
environment parameter covers every schedule; counts that no schedule can
produce (e.g. a short prefix although enough workers survive) only add
behaviours, which makes the universally quantified theorems below
stronger, not weaker. -/
structure BatchEnv where
  pyStr : ℚ → Str
  pyFloat : Str → Option ℚ
  dateobs_to_jd : Str → ℚ
  header : Str → Header
  telescope_parameters : List (Str × ObsParam)
  launchOk : Str → Bool
  readLdacOk : Str → Bool
  ldacLen : Str → ℕ
  poolDequeues : ℕ

/-- The characters of `"TEL_KEYW"` (line 198). -/
def telKeyw : Str := ['T', 'E', 'L', '_', 'K', 'E', 'Y', 'W']

/-- The characters of `"APRAD"` (line 152). -/
def aprKey : Str := ['A', 'P', 'R', 'A', 'D']

/-- The characters of `"SEXSNR"` (line 155). -/
def snrKey : Str := ['S', 'E', 'X', 'S', 'N', 'R']

/-- The characters of `"SEXAREA"` (line 158). -/
def areaKey : Str := ['S', 'E', 'X', 'A', 'R', 'E', 'A']

/-- `pp_extract.py` line 153: `",".join([str(aprad) for aprad in
self.param['aprad']])`.  Iterating a scalar float or int raises
`TypeError`, modelled as `none`. -/
def apradStrings (pyStr : ℚ → Str) : Aprad → Option (List Str)
  | .flt _ => none
  | .intg _ => none
  | .lst l => some (l.map fun e =>
      match e with
      | .num q => pyStr q
      | .str s => s)
  | .arr l => some (l.map pyStr)

/-- `pp_extract.py` lines 152-160: the header updates written back into the
image (`APRAD`, `SEXSNR`, `SEXAREA`). -/
def headerWrites (h : Header) (apradStr : Str) (snr area : ℚ) : Header :=
  fun k =>
    if k = aprKey then some (.s apradStr)
    else if k = snrKey then some (.n snr)
    else if k = areaKey then some (.n area)
    else h k

/-- One iteration of the worker loop `extractor.run` (lines 67-177) on a
dequeued `filename`.  The returned flag says whether the iteration reached
`extractQueue.task_done()` (line 177); `false` means the iteration raised
and the worker thread died without marking the item complete.  The `out`
dictionary is appended to the shared output list *before* processing (lines
75-78), so the record is part of the output in every case; its fields
reflect how far the job got.  A failed `subprocess.Popen` is only logged
(line 121), after which the code raises anyway: on the first iteration
`sex.wait()` hits the unbound local `sex`, on later iterations the stale
process handle makes `read_ldac` fail on the never-regenerated catalog
(deleted at line 90); either way the iteration dies before `task_done`. -/
def extractorRunStep (env : BatchEnv) (par : RunParams) (filename : Str) :
    Record × Bool :=
  let ldacname := ldacName filename
  let out0 : Record :=
    { fits_filename := some filename, ldac_filename := some ldacname,
      parameters := some par }
  if env.launchOk filename then
    if env.readLdacOk ldacname then
      let out1 := { out0 with catalog_data := some (env.ldacLen ldacname) }
      match computeMidtime env.dateobs_to_jd env.pyFloat par.obsparam
          (env.header filename) with
      | none => (out1, false)
      | some t =>
        let out2 := { out1 with time := some t }
        match apradStrings env.pyStr par.aprad with
        | none => (out2, false)
        | some strs =>
          let h2 := headerWrites (env.header filename)
            (List.intercalate [','] strs) par.sex_snr par.source_minarea
          ({ out2 with fits_header := some h2 }, true)
    else (out0, false)
  else (out0, false)

/-- The ways `extract_multiframe`'s batch preparation can fail:
`missingTelescopeTag` is the `return {}` at line 204 (`TEL_KEYW` absent),
`unknownTelescope` the `return {}` at line 211 (table lookup failed), and
`prepFailure` an exception raised during aperture or binning preparation
(`ValueError`, `KeyError` or the `NameError` of unsigned binning). -/
inductive PrepErr
  | missingTelescopeTag
  | unknownTelescope
  | prepFailure
deriving DecidableEq

/-- `pp_extract.py` lines 193-243: per-batch preparation performed once by
`extract_multiframe` on the first image `f0`.  Resolves the telescope (the
given identifier, else the first image's `TEL_KEYW`), looks up the
instrument configuration, prepares the aperture diameter string, detects the
binning and attaches a mask file exactly when the instrument's mask table
has an entry for the binning string. -/
def prepParams (env : BatchEnv) (f0 : Str) (p : Params) :
    Except PrepErr RunParams :=
  let h0 := env.header f0
  let telv : Option HVal :=
    match p.telescope with
    | some t => some (.s t)
    | none => h0 telKeyw
  match telv with
  | none => .error .missingTelescopeTag
  | some tv =>
    let obs? : Option ObsParam :=
      match tv with
      | .s t => assocLookup env.telescope_parameters t
      | .n _ => none
    match obs? with
    | none => .error .unknownTelescope
    | some obsparam =>
      match prepAperture env.pyStr env.pyFloat p.aprad obsparam with
      | none => .error .prepFailure
      | some ad =>
        match computeBinning env.pyFloat obsparam h0 with
        | none => .error .prepFailure
        | some bb =>
          .ok { sex_snr := p.sex_snr, source_minarea := p.source_minarea,
                aprad := ad.1, quiet := p.quiet, paramfile := p.paramfile,
                obsparam := obsparam, aperture_diam := ad.2,
                mask_file := assocLookup obsparam.mask_file
                  (binStringOf bb.1 bb.2) }

/-- The observable outcome of a call to `extract_multiframe`:
`emptyBatchError` is the `IndexError` raised by `filenames[0]` on an empty
batch (line 194); `missingTelescopeTag`/`unknownTelescope` are the logged
`return {}` paths; `prepFailure` an exception during batch preparation;
`hang` means some worker died before `task_done`, so `extractQueue.join()`
(line 267) blocks forever and the call never returns (the shared output
list holds the listed records at that point); `done` is a normal return of
the output list. -/
inductive BatchResult
  | emptyBatchError
  | missingTelescopeTag
  | unknownTelescope
  | prepFailure
  | hang (output : List Record)
  | done (output : List Record)

/-- `pp_extract.py` lines 180-281: `extract_multiframe`.  All filenames are
enqueued before the workers start (lines 251-257), so the FIFO queue hands
them out in input order and the dequeued items are the prefix of length
`env.poolDequeues` (the schedule-dependent count, see `BatchEnv`).  Each
dequeue appends exactly one record to the shared output, never-dequeued
filenames append nothing, and the coordinator waits on
`extractQueue.join()` (line 267), which returns exactly when the number of
items marked complete by `task_done` equals the number enqueued: the batch
returns (`done`) iff every filename was dequeued and its iteration
completed, and hangs (`hang`) otherwise, with the shared output holding
the records of the dequeued prefix. -/
def extract_multiframe (env : BatchEnv) (filenames : List Str) (p : Params) :
    BatchResult :=
  match filenames with
  | [] => .emptyBatchError
  | f0 :: _ =>
    match prepParams env f0 p with
    | .error .missingTelescopeTag => .missingTelescopeTag
    | .error .unknownTelescope => .unknownTelescope
    | .error .prepFailure => .prepFailure
    | .ok par =>
      let results := (filenames.take env.poolDequeues).map
        (extractorRunStep env par)
      if (results.filter (fun r => r.2)).length = filenames.length
      then .done (results.map (fun r => r.1))
      else .hang (results.map (fun r => r.1))

/-- Classification of a `BatchResult`, with decidable equality. -/
inductive BatchKind
  | kEmpty
  | kMissing
  | kUnknown
  | kPrep
  | kHang
  | kDone
deriving DecidableEq

/-- The kind of a `BatchResult`. -/
def resultKind : BatchResult → BatchKind
  | .emptyBatchError => .kEmpty
  | .missingTelescopeTag => .kMissing
  | .unknownTelescope => .kUnknown
  | .prepFailure => .kPrep
  | .hang _ => .kHang
  | .done _ => .kDone

/-- The `fits_filename` fields of the output records, when an output list
exists (normal return, or the shared list at the moment the batch hangs). -/
def resultFilenames : BatchResult → Option (List (Option Str))
  | .hang o => some (o.map fun r => r.fits_filename)
  | .done o => some (o.map fun r => r.fits_filename)
  | _ => none

/-- The state of `extractQueue` together with the completion counters that
Python's `Queue` keeps for `join`: `pending` are the enqueued-not-yet-dequeued
filenames, `enqueued`/`dequeued`/`completed` count `put` (line 257), `get`
(line 70) and `task_done` (line 177) calls.  Python's `unfinished_tasks` is
`enqueued - completed`; items dequeued but not yet completed are in flight. -/
structure QueueState where
  pending : List Str
  enqueued : ℕ
  dequeued : ℕ
  completed : ℕ
deriving DecidableEq

/-- The queue transitions `pp_extract.py` performs: the coordinator `put`s
each filename (line 257), a worker `get`s the head item (line 70), and a
worker calls `task_done` only at the end of processing an item it
previously dequeued (line 177), so completions never exceed dequeues. -/
inductive QStep : QueueState → QueueState → Prop
  | put (s : QueueState) (f : Str) :
      QStep s ⟨s.pending ++ [f], s.enqueued + 1, s.dequeued, s.completed⟩
  | get (s : QueueState) (f : Str) (rest : List Str)
      (h : s.pending = f :: rest) :
      QStep s ⟨rest, s.enqueued, s.dequeued + 1, s.completed⟩
  | taskDone (s : QueueState) (h : s.completed < s.dequeued) :
      QStep s ⟨s.pending, s.enqueued, s.dequeued, s.completed + 1⟩

/-- Queue states reachable from the initial empty queue (line 53). -/
inductive QReach : QueueState → Prop
  | init : QReach ⟨[], 0, 0, 0⟩
  | step : ∀ {s t : QueueState}, QReach s → QStep s t → QReach t

/-- `extractQueue.join()` (line 267) returns exactly when Python's
`unfinished_tasks` counter is zero, i.e. completions equal enqueues. -/
def joinReturns (s : QueueState) : Prop := s.completed = s.enqueued

/-- Spec-side restatement of the aperture diameter string, written from the
spec's words for comparison with the source-derived `prepAperture`:
"2× each radius, comma-joined, preserving input order; empty radius list
yields 2× the instrument default as a single value". -/
def specApertureDiam (pyStr : ℚ → Str) (radii : List ℚ) (dflt : ℚ) : Str :=
  if radii = [] then pyStr (2 * dflt)
  else List.intercalate [','] (radii.map fun r => pyStr (2 * r))

/-- Concrete instrument configuration used by witnesses. -/
def cObs : ObsParam :=
  { sexConfigFile := "conf.sex".toList,
    aprad_default := 5,
    binning := ("BINX".toList, "BINY".toList),
    mask_file := [("2,2".toList, "mask_2x2.fits".toList)],
    obsmidtime_jd := "MIDTIMJD".toList,
    date_keyword := "DATE-OBS".toList,
    exptime := "EXPTIME".toList }

/-- Concrete FITS header used by witnesses: the mid-time key is present, the
binning keys are direct numeric keys, and `TEL_KEYW` names the telescope. -/
def cHeader : Header := fun k =>
  if k = "MIDTIMJD".toList then some (.n 5)
  else if k = "BINX".toList then some (.n 2)
  else if k = "BINY".toList then some (.n 2)
  else if k = telKeyw then some (.s "scope".toList)
  else none

/-- Concrete batch environment in which every job of the file
`"bad.fits"` fails at catalog parsing (`read_ldac` of `"bad.ldac"` raises)
and every other job succeeds; the pool dequeues both items of a two-file
batch (with at most as many files as workers, every schedule dequeues
everything). -/
def cEnv1 : BatchEnv :=
  { pyStr := showQ, pyFloat := parseQ, dateobs_to_jd := fun _ => 0,
    header := fun _ => cHeader,
    telescope_parameters := [("scope".toList, cObs)],
    launchOk := fun _ => true,
    readLdacOk := fun c => !(c == "bad.ldac".toList),
    ldacLen := fun _ => 3,
    poolDequeues := 2 }

/-- Concrete batch parameters used by witnesses. -/
def cParams : Params :=
  { sex_snr := 3 / 2, source_minarea := 3, aprad := .lst [.num 2],
    telescope := some "scope".toList, quiet := true, paramfile := none }

/-- Concrete batch environment in which launching Source Extractor fails on
the file `"img1.fits"`. -/
def cEnv8 : BatchEnv :=
  { cEnv1 with launchOk := fun f => !(f == "img1.fits".toList) }

/-- Concrete post-preparation parameters used by the launch-failure theorem. -/
def cRun8 : RunParams :=
  { sex_snr := 3 / 2, source_minarea := 3, aprad := .lst [.num 2],
    quiet := true, paramfile := none, obsparam := cObs,
    aperture_diam := "4.0".toList, mask_file := none }

/-- Instrument configuration whose binning keys contain `_` but not
`_blank` ("BIN_X"/"BIN_Y"): the underscore-composite shape the spec claims
is supported. -/
def cObs9 : ObsParam :=
  { cObs with binning := ("BIN_X".toList, "BIN_Y".toList) }

/-- A header holding numeric values for the `BIN_X`/`BIN_Y` keys and a
string value for their `_`-truncated prefix `BIN`, so that no missing
header key can be blamed for the binning failure. -/
def cHeader9 : Header := fun k =>
  if k = "BIN_X".toList then some (.n 2)
  else if k = "BIN_Y".toList then some (.n 2)
  else if k = "BIN".toList then some (.s "2 2".toList)
  else none

/-- Instrument configuration with `_blank`-composite binning keys. -/
def cObs9b : ObsParam :=
  { cObs with binning := ("CCDSUM_blank".toList, "CCDSUM_blank".toList) }

/-- A header carrying the blank-separated binning value `"2 2"` under
`CCDSUM`. -/
def cHeader9b : Header := fun k =>
  if k = "CCDSUM".toList then some (.s "2 2".toList)
  else none

/-- Instrument configuration with a two-part date keyword
`DATE-OBS|UT`. -/
def cObs3 : ObsParam :=
  { cObs with date_keyword := "DATE-OBS|UT".toList }

/-- A header with no pre-existing mid-time, separately keyed date and time
strings, and a numeric exposure time of 10 seconds. -/
def cHeader3 : Header := fun k =>
  if k = "DATE-OBS".toList then some (.s "2015-12-30".toList)
  else if k = "UT".toList then some (.s "12:00:00".toList)
  else if k = "EXPTIME".toList then some (.n 10)
  else none

/-- A concrete Julian-date converter for witnesses. -/
def cJd : Str → ℚ := fun _ => 100

/-- Batch environment whose image headers are empty: `TEL_KEYW` is absent. -/
def cEnvM : BatchEnv :=
  { cEnv1 with header := fun _ => fun _ => none }

/-! Helper lemmas about the string model. -/

theorem isPrefixOfB_append (s t : Str) : isPrefixOfB s (s ++ t) = true := by
  induction s with
  | nil => rfl
  | cons a as ih => simp [isPrefixOfB, ih]

theorem prefix_exists {sub l : Str} (h : isPrefixOfB sub l = true) :
    ∃ r, l = sub ++ r := by
  induction sub generalizing l with
  | nil => exact ⟨l, rfl⟩
  | cons a as ih =>
    cases l with
    | nil => simp [isPrefixOfB] at h
    | cons b bs =>
      simp [isPrefixOfB] at h
      obtain ⟨h1, h2⟩ := h
      obtain ⟨r, hr⟩ := ih h2
      exact ⟨r, by simp [h1, hr]⟩

theorem containsSub_cons (c : Char) (t sub : Str) :
    containsSub (c :: t) sub
      = (isPrefixOfB sub (c :: t) || containsSub t sub) := by
  simp only [containsSub, findSub]
  cases hp : isPrefixOfB sub (c :: t) with
  | true => simp [hp]
  | false =>
    simp only [hp, Bool.false_eq_true, if_false, Bool.false_or]
    cases h2 : findSub t sub <;> simp [h2]

theorem findSub_self_append (sub t : Str) (hne : sub ≠ []) :
    findSub (sub ++ t) sub = some 0 := by
  cases sub with
  | nil => exact absurd rfl hne
  | cons a as =>
    have hp : isPrefixOfB (a :: as) ((a :: as) ++ t) = true :=
      isPrefixOfB_append _ _
    rw [List.cons_append] at hp
    rw [List.cons_append, findSub, hp]
    simp

theorem findSub_fit_boundary (ext : Str) :
    ∀ stem : Str, containsSub stem fitL = false →
      findSub (stem ++ (fitL ++ ext)) fitL = some stem.length := by
  intro stem
  induction stem with
  | nil =>
    intro _
    rw [List.nil_append, findSub_self_append fitL ext (by simp [fitL])]
    rfl
  | cons c s ih =>
    intro h
    rw [containsSub_cons] at h
    simp only [Bool.or_eq_false_iff] at h
    obtain ⟨h1, h2⟩ := h
    have hpref : isPrefixOfB fitL (c :: (s ++ (fitL ++ ext))) = false := by
      cases hp : isPrefixOfB fitL (c :: (s ++ (fitL ++ ext))) with
      | false => rfl
      | true =>
        exfalso
        obtain ⟨r, hr⟩ := prefix_exists hp
        simp only [fitL, List.cons_append, List.nil_append,
          List.cons.injEq] at hr
        obtain ⟨hc, hrest⟩ := hr
        rcases s with _ | ⟨a, _ | ⟨b, _ | ⟨d, s3⟩⟩⟩
        · simp [fitL] at hrest
        · simp only [fitL, List.cons_append, List.nil_append,
            List.cons.injEq] at hrest
          obtain ⟨ha, hrest⟩ := hrest
          simp at hrest
        · simp only [fitL, List.cons_append, List.nil_append,
            List.cons.injEq] at hrest
          obtain ⟨ha, hb, hrest⟩ := hrest
          simp at hrest
        · simp only [fitL, List.cons_append, List.nil_append,
            List.cons.injEq] at hrest
          obtain ⟨ha, hb, hd, hrest⟩ := hrest
          subst hc; subst ha; subst hb; subst hd
          simp [fitL, isPrefixOfB] at h1
    rw [List.cons_append, findSub, hpref]
    simp only [Bool.false_eq_true, if_false]
    rw [ih h2]
    simp

theorem pySplitAux_no_sep (sep : Char) :
    ∀ (k acc : Str), containsSub k [sep] = false →
      pySplitAux sep k acc = [acc.reverse ++ k] := by
  intro k
  induction k with
  | nil => intro acc _; simp [pySplitAux]
  | cons c t ih =>
    intro acc h
    rw [containsSub_cons] at h
    simp only [Bool.or_eq_false_iff] at h
    obtain ⟨h1, h2⟩ := h
    have hcs : ¬ c = sep := by
      intro he; subst he; simp [isPrefixOfB] at h1
    rw [pySplitAux, if_neg hcs, ih (c :: acc) h2]
    simp

theorem pySplitAux_boundary (sep : Char) (k2 : Str) :
    ∀ (k1 acc : Str), containsSub k1 [sep] = false →
      pySplitAux sep (k1 ++ sep :: k2) acc
        = (acc.reverse ++ k1) :: pySplitAux sep k2 [] := by
  intro k1
  induction k1 with
  | nil =>
    intro acc _
    simp [pySplitAux]
  | cons c t ih =>
    intro acc h
    rw [containsSub_cons] at h
    simp only [Bool.or_eq_false_iff] at h
    obtain ⟨h1, h2⟩ := h
    have hcs : ¬ c = sep := by
      intro he; subst he; simp [isPrefixOfB] at h1
    rw [List.cons_append, pySplitAux, if_neg hcs, ih (c :: acc) h2]
    simp

theorem pySplitChar_two (sep : Char) (k1 k2 : Str)
    (h1 : containsSub k1 [sep] = false)
    (h2 : containsSub k2 [sep] = false) :
    pySplitChar (k1 ++ sep :: k2) sep = [k1, k2] := by
  unfold pySplitChar
  rw [pySplitAux_boundary sep k2 k1 [] h1, pySplitAux_no_sep sep k2 [] h2]
  simp

theorem pySplitChar_head (sep : Char) (k1 k2 : Str)
    (h1 : containsSub k1 [sep] = false) :
    (pySplitChar (k1 ++ sep :: k2) sep).headD [] = k1 := by
  unfold pySplitChar
  rw [pySplitAux_boundary sep k2 k1 [] h1]
  simp

theorem containsSub_boundary (sep : Char) (k1 k2 : Str) :
    containsSub (k1 ++ sep :: k2) [sep] = true := by
  induction k1 with
  | nil =>
    rw [List.nil_append, containsSub_cons]
    simp [isPrefixOfB]
  | cons c t ih =>
    rw [List.cons_append, containsSub_cons, ih]
    simp

theorem optionMapList_num (pf : Str → Option ℚ) (radii : List ℚ) :
    optionMapList (pyFloatScalar pf) (radii.map PyScalar.num) = some radii := by
  induction radii with
  | nil => rfl
  | cons r rs ih => simp [optionMapList, pyFloatScalar, ih]

theorem intercalate_single (x : Str) : List.intercalate [','] [x] = x := by
  simp [List.intercalate]

theorem queue_invariant {s : QueueState} (h : QReach s) :
    s.dequeued + s.pending.length = s.enqueued ∧ s.completed ≤ s.dequeued := by
  induction h with
  | init => simp
  | step hr hs ih =>
    cases hs with
    | put f =>
      dsimp only
      simp only [List.length_append, List.length_cons, List.length_nil]
      omega
    | get f rest hp =>
      dsimp only
      rw [hp] at ih
      simp only [List.length_cons] at ih
      omega
    | taskDone hlt =>
      dsimp only
      omega

theorem extractorRunStep_fits (env : BatchEnv) (par : RunParams) (f : Str) :
    ((extractorRunStep env par f).1).fits_filename = some f := by
  unfold extractorRunStep
  dsimp only
  repeat' split
  all_goals rfl

theorem extractorRunStep_ldac (env : BatchEnv) (par : RunParams) (f : Str) :
    ((extractorRunStep env par f).1).ldac_filename = some (ldacName f) := by
  unfold extractorRunStep
  dsimp only
  repeat' split
  all_goals rfl

/-! The claims. -/

/-- C7: for the empty input list, `extract_multiframe` fails immediately
with the empty-batch error (the `IndexError` raised by `filenames[0]` at
line 194), whatever the environment and parameters: no telescope
resolution and no job processing is attempted. -/
theorem empty_batch_error_thm (env : BatchEnv) (p : Params) :
    extract_multiframe env [] p = BatchResult.emptyBatchError := rfl

/-- C2: in every batch in which `extract_multiframe` returns — that is, in
every reachable queue state in which `extractQueue.join()` unblocks,
`joinReturns` — the queue holds zero pending items and zero in-flight
items: every enqueued filename has been dequeued and marked complete. -/
theorem queue_drain_on_join (s : QueueState) (h1 : QReach s)
    (h2 : joinReturns s) : s.pending = [] ∧ s.dequeued = s.completed := by
  obtain ⟨hi, hc⟩ := queue_invariant h1
  unfold joinReturns at h2
  have hlen : s.pending.length = 0 := by omega
  exact ⟨List.length_eq_zero.mp hlen, by omega⟩

/-- C2 witness: the reachable state after `put`, `get`, `task_done` of one
item satisfies the drain property. -/
theorem queue_drain_on_join_w :
    (⟨[], 1, 1, 1⟩ : QueueState).pending = [] ∧
    (⟨[], 1, 1, 1⟩ : QueueState).dequeued
      = (⟨[], 1, 1, 1⟩ : QueueState).completed := by
  have r0 : QReach ⟨[], 0, 0, 0⟩ := QReach.init
  have r1 : QReach ⟨[['a']], 1, 0, 0⟩ := QReach.step r0 (QStep.put _ ['a'])
  have r2 : QReach ⟨[], 1, 1, 0⟩ := QReach.step r1 (QStep.get _ ['a'] [] rfl)
  have r3 : QReach ⟨[], 1, 1, 1⟩ :=
    QReach.step r2 (QStep.taskDone _ (by decide))
  exact queue_drain_on_join _ r3 rfl

/-- C4 (amended): the catalog path recorded for a job is the input filename
truncated at the *first* occurrence of `".fit"`, with `".ldac"` appended;
when `".fit"` does not occur before the image-format suffix this coincides
with replacing the suffix, but not otherwise.  The derivation is the
function `ldacName` of the filename alone (deterministic). -/
theorem ldacName_first_fit_truncation :
    (∀ (env : BatchEnv) (par : RunParams) (f : Str),
      ((extractorRunStep env par f).1).ldac_filename = some (ldacName f))
    ∧ (∀ stem ext : Str, containsSub stem fitL = false →
        ldacName (stem ++ (fitL ++ ext)) = stem ++ ldacL) := by
  constructor
  · exact extractorRunStep_ldac
  · intro stem ext h
    unfold ldacName sliceToFind
    rw [findSub_fit_boundary ext stem h]
    congr 1
    exact List.take_left stem (fitL ++ ext)

/-- C4 witness: for `image1.fits` (no earlier `.fit` occurrence) the
derived path is `image1.ldac`. -/
theorem ldacName_first_fit_truncation_w :
    containsSub "image1".toList fitL = false ∧
    ldacName ("image1".toList ++ (fitL ++ "s".toList))
      = "image1".toList ++ ldacL :=
  ⟨by decide,
   ldacName_first_fit_truncation.2 "image1".toList "s".toList (by decide)⟩

/-- C4 counterexample: for the filename `x.fit.fits` the code truncates at
the first `.fit` and derives `x.ldac`, which is not the filename with its
image-format suffix `.fits` replaced by `.ldac` (`x.fit.ldac`): something
else about the filename was changed. -/
theorem ldacName_suffix_cex :
    ("x.fit.fits".toList : Str) = "x.fit".toList ++ ".fits".toList ∧
    ldacName "x.fit.fits".toList = "x.ldac".toList ∧
    ldacName "x.fit.fits".toList ≠ "x.fit".toList ++ ldacL := by
  decide

/-- C3: the recorded observation mid-time.  A pre-existing mid-time header
field is used directly; otherwise, for a single combined date-time key (no
`|` in the key) the mid-time is `convert(date) + exptime/2/86400`, and for
a date keyword `k1|k2` naming two separately-keyed strings it is
`convert(date + "T" + time) + exptime/2/86400`. -/
theorem midtime_formula (jd : Str → ℚ) (pf : Str → Option ℚ) (op : ObsParam)
    (h : Header) :
    (∀ v, h op.obsmidtime_jd = some v → computeMidtime jd pf op h = some v)
    ∧ (h op.obsmidtime_jd = none →
       containsSub op.date_keyword pipeL = false →
       ∀ d ev t, h op.date_keyword = some (.s d) → h op.exptime = some ev →
         hvalFloat pf ev = some t →
         computeMidtime jd pf op h = some (.n (jd d + t / 2 / 86400)))
    ∧ (h op.obsmidtime_jd = none →
       ∀ k1 k2 d tm ev t, op.date_keyword = k1 ++ '|' :: k2 →
         containsSub k1 pipeL = false → containsSub k2 pipeL = false →
         h k1 = some (.s d) → h k2 = some (.s tm) →
         h op.exptime = some ev → hvalFloat pf ev = some t →
         computeMidtime jd pf op h
           = some (.n (jd (d ++ 'T' :: tm) + t / 2 / 86400))) := by
  refine ⟨?_, ?_, ?_⟩
  · intro v hv
    unfold computeMidtime
    rw [hv]
  · intro h0 hc d ev t hd he hv
    unfold computeMidtime
    rw [h0, hc]
    simp [hd, he, hv]
  · intro h0 k1 k2 d tm ev t hdk hk1 hk2 hd htm he hv
    have hct : containsSub (k1 ++ '|' :: k2) pipeL = true := by
      simpa [pipeL] using containsSub_boundary '|' k1 k2
    unfold computeMidtime
    rw [h0, hdk, hct, pySplitChar_two '|' k1 k2 hk1 hk2]
    simp [hd, htm, he, hv]

/-- C3 witness: two-part date keyword `DATE-OBS|UT`, exposure time 10 s,
constant Julian-date converter. -/
theorem midtime_formula_w :
    computeMidtime cJd parseQ cObs3 cHeader3
      = some (.n (100 + (10 : ℚ) / 2 / 86400)) :=
  (midtime_formula cJd parseQ cObs3 cHeader3).2.2 (by decide)
    "DATE-OBS".toList "UT".toList "2015-12-30".toList "12:00:00".toList
    (HVal.n 10) 10 (by decide) (by decide) (by decide) (by decide)
    (by decide) (by decide) (by decide)

/-- C5: the aperture diameter string equals the comma-joined sequence of
2× each configured radius in input order (the source writes the factor as
`rad * 2`); an empty radius list, or the float 0, yields the single value
2× the instrument default.  Stated against the spec-side restatement
`specApertureDiam`. -/
theorem aperture_diam_spec (pyStr : ℚ → Str) (pf : Str → Option ℚ)
    (op : ObsParam) :
    (∀ radii : List ℚ,
      prepAperture pyStr pf (.lst (radii.map PyScalar.num)) op
        = some (.lst (radii.map PyScalar.num),
            specApertureDiam pyStr radii op.aprad_default))
    ∧ prepAperture pyStr pf (.flt 0) op
        = some (.flt 0, specApertureDiam pyStr [] op.aprad_default) := by
  constructor
  · intro radii
    cases radii with
    | nil => simp [prepAperture, specApertureDiam, mul_comm]
    | cons r rs =>
      simp only [prepAperture, joinDiam]
      rw [if_neg (by simp), optionMapList_num]
      simp [specApertureDiam, mul_comm]
  · simp [prepAperture, specApertureDiam, mul_comm]

/-- C10: a single non-zero scalar radius (a float or an int, not a list or
array) is accepted: it is wrapped into the one-element list `[str(aprad)]`
and the diameter string becomes the single value twice that scalar,
provided Python's `float(str(x))` round trip returns `x`. -/
theorem scalar_aprad_wrapped (pyStr : ℚ → Str) (pf : Str → Option ℚ)
    (op : ObsParam) :
    (∀ q : ℚ, q ≠ 0 → pf (pyStr q) = some q →
      prepAperture pyStr pf (.flt q) op
        = some (.lst [.str (pyStr q)], pyStr (q * 2)))
    ∧ (∀ n : ℤ, n ≠ 0 → pf (intStr n) = some (n : ℚ) →
      prepAperture pyStr pf (.intg n) op
        = some (.lst [.str (intStr n)], pyStr ((n : ℚ) * 2))) := by
  constructor
  · intro q hq hrt
    simp [prepAperture, hq, joinDiam, optionMapList, pyFloatScalar, hrt,
      intercalate_single]
  · intro n _ hrt
    simp [prepAperture, joinDiam, optionMapList, pyFloatScalar, hrt,
      intercalate_single]

/-- C10 witness: the scalar 3 with the concrete decimal conversions. -/
theorem scalar_aprad_wrapped_w :
    prepAperture showQ parseQ (.flt 3) cObs
      = some (.lst [.str (showQ 3)], showQ (3 * 2)) :=
  (scalar_aprad_wrapped showQ parseQ cObs).1 3 (by decide) (by decide)

/-- C9 (amended): binning is determined from the first image's header for a
direct key (no `_`) and for a `_blank`-composite key; but a key containing
`_` without `_blank` assigns neither binning value — the code then raises
`NameError` at `bin_string` — so determination does not succeed for every
underscore-composite key.  A mask file is attached to the batch parameters
exactly when the instrument's mask table has an entry for the detected
binning string. -/
theorem binning_and_mask_amended :
    (∀ (pf : Str → Option ℚ) (op : ObsParam) (h : Header) (bx bny : ℚ),
      containsSub op.binning.1 undL = false →
      h op.binning.1 = some (.n bx) → h op.binning.2 = some (.n bny) →
      computeBinning pf op h = some (bx, bny))
    ∧ (∀ (pf : Str → Option ℚ) (op : ObsParam) (h : Header)
        (k1 r1 k2 r2 v1 v2 t1 t2 : Str) (bx bny : ℚ),
      op.binning.1 = k1 ++ '_' :: r1 → containsSub k1 undL = false →
      containsSub op.binning.1 blankL = true →
      op.binning.2 = k2 ++ '_' :: r2 → containsSub k2 undL = false →
      h k1 = some (.s v1) → (pySplitWs v1)[0]? = some t1 →
      pf t1 = some bx →
      h k2 = some (.s v2) → (pySplitWs v2)[1]? = some t2 →
      pf t2 = some bny →
      computeBinning pf op h = some (bx, bny))
    ∧ (∀ (pf : Str → Option ℚ) (op : ObsParam) (h : Header),
      containsSub op.binning.1 undL = true →
      containsSub op.binning.1 blankL = false →
      computeBinning pf op h = none)
    ∧ (∀ (env : BatchEnv) (f0 : Str) (p : Params) (rp : RunParams),
      prepParams env f0 p = .ok rp →
      ∃ b : ℚ × ℚ,
        computeBinning env.pyFloat rp.obsparam (env.header f0) = some b ∧
        rp.mask_file = assocLookup rp.obsparam.mask_file
          (binStringOf b.1 b.2)) := by
  refine ⟨?_, ?_, ?_, ?_⟩
  · intro pf op h bx bny hu h1 h2
    unfold computeBinning
    rw [hu]
    simp [h1, h2]
  · intro pf op h k1 r1 k2 r2 v1 v2 t1 t2 bx bny hb1 hk1 hblank hb2 hk2
      hv1 ht1 hbx hv2 ht2 hbny
    rw [hb1] at hblank
    have hu : containsSub (k1 ++ '_' :: r1) undL = true := by
      simpa [undL] using containsSub_boundary '_' k1 r1
    have hh1 : (pySplitChar (k1 ++ '_' :: r1) '_').headD [] = k1 :=
      pySplitChar_head '_' k1 r1 hk1
    have hh2 : (pySplitChar (k2 ++ '_' :: r2) '_').headD [] = k2 :=
      pySplitChar_head '_' k2 r2 hk2
    unfold computeBinning
    rw [hb1, hb2, hu, hblank, hh1, hh2]
    simp [hv1, ht1, hbx, hv2, ht2, hbny]
  · intro pf op h hu hb
    unfold computeBinning
    rw [hu, hb]
    simp
  · intro env f0 p rp h
    simp only [prepParams] at h
    split at h
    · simp at h
    · split at h
      · simp at h
      · split at h
        · simp at h
        · split at h
          · simp at h
          · rename_i obsparam hAd ad bb hbb
            simp only [Except.ok.injEq] at h
            subst h
            exact ⟨bb, hbb, rfl⟩

/-- C9 witness: the `_blank`-composite key `CCDSUM_blank` with the header
value `"2 2"` yields the binning (2, 2). -/
theorem binning_and_mask_amended_w :
    computeBinning parseQ cObs9b cHeader9b = some (2, 2) :=
  binning_and_mask_amended.2.1 parseQ cObs9b cHeader9b
    "CCDSUM".toList "blank".toList "CCDSUM".toList "blank".toList
    "2 2".toList "2 2".toList "2".toList "2".toList 2 2
    (by decide) (by decide) (by decide) (by decide) (by decide)
    (by decide) (by decide) (by decide) (by decide) (by decide) (by decide)

/-- C9 counterexample: the underscore-composite binning key `BIN_X` (no
`_blank`), with a header holding values under every plausibly relevant
key, assigns neither binning value: the determination does not succeed. -/
theorem binning_underscore_no_blank_cex :
    containsSub "BIN_X".toList undL = true ∧
    containsSub "BIN_X".toList blankL = false ∧
    computeBinning parseQ cObs9 cHeader9 = none := by
  decide

/-- C6: when telescope resolution fails — no identifier given and `TEL_KEYW`
absent from the first image's header (`MissingTelescopeTag`), or the
identifier (given or read from the header) absent from the static table
(`UnknownTelescope`) — the whole batch aborts with that error before any
job runs, and no result set, partial or otherwise, exists. -/
theorem telescope_resolution_failure_aborts :
    (∀ (env : BatchEnv) (f0 : Str) (rest : List Str) (p : Params),
      p.telescope = none → env.header f0 telKeyw = none →
      extract_multiframe env (f0 :: rest) p = .missingTelescopeTag ∧
      resultFilenames (extract_multiframe env (f0 :: rest) p) = none)
    ∧ (∀ (env : BatchEnv) (f0 : Str) (rest : List Str) (p : Params)
        (t : Str),
      p.telescope = some t → assocLookup env.telescope_parameters t = none →
      extract_multiframe env (f0 :: rest) p = .unknownTelescope ∧
      resultFilenames (extract_multiframe env (f0 :: rest) p) = none)
    ∧ (∀ (env : BatchEnv) (f0 : Str) (rest : List Str) (p : Params)
        (t : Str),
      p.telescope = none → env.header f0 telKeyw = some (.s t) →
      assocLookup env.telescope_parameters t = none →
      extract_multiframe env (f0 :: rest) p = .unknownTelescope ∧
      resultFilenames (extract_multiframe env (f0 :: rest) p) = none) := by
  refine ⟨?_, ?_, ?_⟩
  · intro env f0 rest p h1 h2
    have he : extract_multiframe env (f0 :: rest) p = .missingTelescopeTag := by
      simp [extract_multiframe, prepParams, h1, h2]
    exact ⟨he, by rw [he]; rfl⟩
  · intro env f0 rest p t h1 h2
    have he : extract_multiframe env (f0 :: rest) p = .unknownTelescope := by
      simp [extract_multiframe, prepParams, h1, h2]
    exact ⟨he, by rw [he]; rfl⟩
  · intro env f0 rest p t h1 h2 h3
    have he : extract_multiframe env (f0 :: rest) p = .unknownTelescope := by
      simp [extract_multiframe, prepParams, h1, h2, h3]
    exact ⟨he, by rw [he]; rfl⟩

/-- C6 witness: a header without `TEL_KEYW` gives the missing-tag abort; an
identifier absent from the table gives the unknown-telescope abort. -/
theorem telescope_resolution_failure_aborts_w :
    extract_multiframe cEnvM ["a.fits".toList]
      { cParams with telescope := none } = .missingTelescopeTag ∧
    extract_multiframe cEnv1 ["a.fits".toList]
      { cParams with telescope := some "nope".toList } = .unknownTelescope :=
  ⟨(telescope_resolution_failure_aborts.1 cEnvM "a.fits".toList [] _
      rfl rfl).1,
   (telescope_resolution_failure_aborts.2.1 cEnv1 "a.fits".toList [] _
      "nope".toList rfl (by decide)).1⟩

/-- C1 (amended): every *dequeued* job contributes exactly one record to
the shared output, appended *before* processing (lines 74-78) — so a job
that fails with a job-isolated error still leaves a (partial) record and
its filename is present, not absent.  Records exist exactly for the
dequeued filenames (a filename can be stranded in the queue when all
workers have died before reaching it), so the output never holds more
records than there are input filenames; and whenever the batch actually
returns, every input filename is covered. -/
theorem extract_multiframe_output_amended (env : BatchEnv) (fs : List Str)
    (p : Params) (l : List (Option Str))
    (h : resultFilenames (extract_multiframe env fs p) = some l) :
    l.length ≤ fs.length
    ∧ (∀ f ∈ fs.take env.poolDequeues, some f ∈ l)
    ∧ (∀ x ∈ l, ∃ f ∈ fs.take env.poolDequeues, x = some f)
    ∧ (resultKind (extract_multiframe env fs p) = .kDone →
        ∀ f ∈ fs, some f ∈ l) := by
  cases fs with
  | nil => simp [extract_multiframe, resultFilenames] at h
  | cons f0 rest =>
    rcases hp : prepParams env f0 p with e | par
    · unfold extract_multiframe at h
      dsimp only at h
      rw [hp] at h
      cases e <;> simp [resultFilenames] at h
    · have hE : extract_multiframe env (f0 :: rest) p =
        if ((((f0 :: rest).take env.poolDequeues).map
              (extractorRunStep env par)).filter (fun r => r.2)).length
            = (f0 :: rest).length
        then BatchResult.done ((((f0 :: rest).take env.poolDequeues).map
              (extractorRunStep env par)).map (fun r => r.1))
        else BatchResult.hang ((((f0 :: rest).take env.poolDequeues).map
              (extractorRunStep env par)).map (fun r => r.1)) := by
        unfold extract_multiframe
        dsimp only
        rw [hp]
      by_cases hc : ((((f0 :: rest).take env.poolDequeues).map
            (extractorRunStep env par)).filter (fun r => r.2)).length
          = (f0 :: rest).length
      · have htake : (f0 :: rest).take env.poolDequeues = f0 :: rest := by
          apply List.take_of_length_le
          have h1 := List.length_filter_le (fun r : Record × Bool => r.2)
            (((f0 :: rest).take env.poolDequeues).map
              (extractorRunStep env par))
          rw [hc, List.length_map, List.length_take] at h1
          omega
        rw [hE, if_pos hc, htake] at h
        simp only [resultFilenames, Option.some.injEq, List.map_map] at h
        refine ⟨?_, ?_, ?_, ?_⟩
        · rw [← h]
          simp
        · intro f hf
          rw [htake] at hf
          rw [← h]
          exact List.mem_map.mpr ⟨f, hf, extractorRunStep_fits env par f⟩
        · intro x hx
          rw [← h] at hx
          obtain ⟨f, hf, hfx⟩ := List.mem_map.mp hx
          refine ⟨f, by rw [htake]; exact hf, ?_⟩
          rw [← hfx]
          exact extractorRunStep_fits env par f
        · intro _ f hf
          rw [← h]
          exact List.mem_map.mpr ⟨f, hf, extractorRunStep_fits env par f⟩
      · rw [hE, if_neg hc] at h
        simp only [resultFilenames, Option.some.injEq, List.map_map] at h
        refine ⟨?_, ?_, ?_, ?_⟩
        · rw [← h]
          simp only [List.length_map, List.length_take]
          omega
        · intro f hf
          rw [← h]
          exact List.mem_map.mpr ⟨f, hf, extractorRunStep_fits env par f⟩
        · intro x hx
          rw [← h] at hx
          obtain ⟨f, hf, hfx⟩ := List.mem_map.mp hx
          refine ⟨f, hf, ?_⟩
          rw [← hfx]
          exact extractorRunStep_fits env par f
        · intro hk
          rw [hE, if_neg hc] at hk
          simp [resultKind] at hk

/-- C1 witness: the two-file batch in which both files are dequeued and
`bad.fits` fails catalog parsing satisfies the length bound, covers both
dequeued filenames, draws every record from the dequeued prefix, and
vacuously the return-coverage clause (the batch hangs). -/
theorem extract_multiframe_output_amended_w :
    ([some "good.fits".toList, some "bad.fits".toList]
        : List (Option Str)).length
      ≤ (["good.fits".toList, "bad.fits".toList] : List Str).length
    ∧ (∀ f ∈ (["good.fits".toList, "bad.fits".toList]
          : List Str).take cEnv1.poolDequeues,
        some f ∈ ([some "good.fits".toList, some "bad.fits".toList]
          : List (Option Str)))
    ∧ (∀ x ∈ ([some "good.fits".toList, some "bad.fits".toList]
          : List (Option Str)),
        ∃ f ∈ (["good.fits".toList, "bad.fits".toList]
          : List Str).take cEnv1.poolDequeues, x = some f)
    ∧ (resultKind (extract_multiframe cEnv1
          ["good.fits".toList, "bad.fits".toList] cParams)
            = BatchKind.kDone →
        ∀ f ∈ (["good.fits".toList, "bad.fits".toList] : List Str),
          some f ∈ ([some "good.fits".toList, some "bad.fits".toList]
            : List (Option Str))) :=
  extract_multiframe_output_amended cEnv1
    ["good.fits".toList, "bad.fits".toList] cParams
    [some "good.fits".toList, some "bad.fits".toList] (by decide)

/-- C1 counterexample: in the five-minus-one spirit of the spec scenario,
a two-file batch where `bad.fits` fails with the catalog-parse error does
not omit the failing filename: its record is in the shared output (appended
before processing), and the batch hangs in `join` instead of returning a
one-record result set. -/
theorem failed_job_record_present_cex :
    resultKind (extract_multiframe cEnv1
      ["good.fits".toList, "bad.fits".toList] cParams) = .kHang ∧
    resultFilenames (extract_multiframe cEnv1
      ["good.fits".toList, "bad.fits".toList] cParams)
      = some [some "good.fits".toList, some "bad.fits".toList] := by
  decide

/-- C8: a failed external-tool launch does not make the worker continue to
the next queued item.  The `except` clause only logs (line 121); execution
then reaches `sex.wait()` with the local `sex` unbound (first iteration) or
bound to a stale process whose catalog was deleted and never regenerated,
so the iteration raises, the worker thread dies without `task_done`, and
the batch hangs in `extractQueue.join()` instead of returning. -/
theorem launch_failure_kills_worker_and_batch :
    (extractorRunStep cEnv8 cRun8 "img1.fits".toList).2 = false ∧
    resultKind (extract_multiframe cEnv8 ["img1.fits".toList] cParams)
      = .kHang := by
  decide
